import Mathlib

/-!
Verification development for the Sign-Language-Video-Converter repository.

The repository's gloss-to-video pipeline (Clip Repository, Online Fallback
Resolver, Gloss Resolver, Video Assembler, Job Coordinator) is specified in
spec.md; the frontend session logic lives in src/frontend/src/App.jsx.
This file embeds both in Lean and proves the stated properties.
-/

namespace GenASL

/-! ## Data model (spec.md §3) -/

/-- Modelled from the spec: clip origin tag of a `ClipRecord` (§3); the pipeline
implementation is not in the repository sources. -/
inductive Origin where
  | LOCAL
  | FETCHED
deriving DecidableEq, Repr

/-- Modelled from the spec: `ClipRecord` (§3) — metadata of one stored clip;
the pipeline implementation is not in the repository sources. -/
structure ClipRecord where
  token : String
  sourcePath : String
  durationMs : Nat
  resolution : Nat × Nat
  frameRate : Nat
  origin : Origin
  fetchedAt : Option Nat
deriving DecidableEq, Repr

/-- Modelled from the spec: the `resolutionSource` tag of a `ResolvedSegment`
(§3); the pipeline implementation is not in the repository sources. -/
inductive ResolutionSource where
  | CACHE_HIT
  | FETCHED
  | MISSING
deriving DecidableEq, Repr

/-- Modelled from the spec: `ResolvedSegment` (§3) — one entry per gloss token;
`clip = none` is the UNRESOLVED marker. The pipeline implementation is not in
the repository sources. -/
structure ResolvedSegment where
  token : String
  clip : Option ClipRecord
  source : ResolutionSource
deriving DecidableEq, Repr

/-- Modelled from the spec: `FetchError` cases of the Online Fallback Resolver
(§4.2); the pipeline implementation is not in the repository sources. -/
inductive FetchError where
  | NotFound
  | DownloadFailed
  | ValidationFailed
deriving DecidableEq, Repr

/-! ## Gloss Resolver (spec.md §4.3) -/

/-- Modelled from the spec: outcome of a Clip Repository `lookup` (§4.1) —
a record (exact or approximate match) or `NotFound`. -/
inductive LookupOutcome where
  | found (r : ClipRecord) (approximate : Bool)
  | notFound
deriving DecidableEq, Repr

/-- Modelled from the spec: outcome of an Online Fallback Resolver `fetch`
(§4.2). -/
inductive FetchOutcome where
  | ok (r : ClipRecord)
  | err (e : FetchError)
deriving DecidableEq, Repr

/-- Modelled from the spec: the environment a resolution pass runs in — what
`lookup` and `fetch` answer for each token during the pass. Per-token
resolution is independent (§4.3, §5), so one pass is a pair of per-token
oracle functions. -/
structure ResolveEnv where
  lookup : String → LookupOutcome
  fetch : String → FetchOutcome

/-- Modelled from the spec: per-token resolution of the Gloss Resolver (§4.3):
try repository `lookup`; on miss invoke fallback `fetch`; on any resolution
failure emit `ResolvedSegment{token, UNRESOLVED}` rather than aborting. -/
def resolveToken (env : ResolveEnv) (t : String) : ResolvedSegment :=
  match env.lookup t with
  | .found r _ => { token := t, clip := some r, source := .CACHE_HIT }
  | .notFound =>
    match env.fetch t with
    | .ok r => { token := t, clip := some r, source := .FETCHED }
    | .err _ => { token := t, clip := none, source := .MISSING }

/-- Modelled from the spec: `resolve(glossSequence)` (§4.3). Tokens resolve
independently and the final list is assembled by original gloss position
regardless of completion order, so the pass is the positional map of
`resolveToken` over the sequence. The Gloss Resolver implementation is not in
the repository sources. -/
def resolve (env : ResolveEnv) (glossSequence : List String) : List ResolvedSegment :=
  glossSequence.map (resolveToken env)

theorem resolveToken_token (env : ResolveEnv) (t : String) :
    (resolveToken env t).token = t := by
  unfold resolveToken
  cases env.lookup t with
  | found r a => rfl
  | notFound =>
    cases env.fetch t with
    | ok r => rfl
    | err e => rfl

/-- C1: for every gloss sequence of length N, `resolve` returns exactly N
`ResolvedSegment`s, and the segment at every position carries the token at the
same position of the input sequence — never reordered, deduplicated or
sorted. Completion order of the per-token lookups cannot influence this: each
position of the result depends only on the oracle's answer at its own token. -/
theorem c1_resolve_positional (env : ResolveEnv) (glossSequence : List String) :
    (resolve env glossSequence).length = glossSequence.length ∧
    ∀ i : Nat, ((resolve env glossSequence)[i]?).map ResolvedSegment.token
      = glossSequence[i]? := by
  constructor
  · simp [resolve]
  · intro i
    simp only [resolve, List.getElem?_map, Option.map_map, Function.comp]
    cases glossSequence[i]? with
    | none => rfl
    | some t => simp [resolveToken_token]

/-! ## Clip Repository (spec.md §4.1) -/

/-- Modelled from the spec: the payload of `register(token, clipData)` (§4.1);
the Clip Repository implementation is not in the repository sources. -/
structure ClipData where
  sourcePath : String
  durationMs : Nat
  resolution : Nat × Nat
  frameRate : Nat
  origin : Origin
  fetchedAt : Option Nat
deriving DecidableEq, Repr

/-- Modelled from the spec: the Clip Repository's store of clip metadata
(§4.1), in registration order. -/
abbrev ClipRepository : Type := List ClipRecord

/-- Modelled from the spec: the exact-match part of `lookup(token)` (§4.1):
the first record whose token matches. -/
def lookupExact (repo : ClipRepository) (t : String) : Option ClipRecord :=
  List.find? (fun r => r.token == t) repo

/-- The `ClipRecord` that registering `clipData` under `token` creates. -/
def recordOf (t : String) (d : ClipData) : ClipRecord :=
  { token := t, sourcePath := d.sourcePath, durationMs := d.durationMs,
    resolution := d.resolution, frameRate := d.frameRate, origin := d.origin,
    fetchedAt := d.fetchedAt }

/-- Modelled from the spec: `register(token, clipData)` (§4.1): atomic upsert;
if a record for `token` already exists the existing record is returned
unchanged (first writer wins), otherwise a new record is appended. The Clip
Repository implementation is not in the repository sources. -/
def register (repo : ClipRepository) (t : String) (d : ClipData) :
    ClipRecord × ClipRepository :=
  match lookupExact repo t with
  | some r => (r, repo)
  | none => (recordOf t d, repo ++ [recordOf t d])

/-- Number of records stored for a given token. -/
def countToken (repo : ClipRepository) (t : String) : Nat :=
  List.countP (fun r => r.token == t) repo

theorem lookupExact_append_single (repo : ClipRepository) (t : String) (r : ClipRecord)
    (h : lookupExact repo t = none) (hr : r.token = t) :
    lookupExact (repo ++ [r]) t = some r := by
  unfold lookupExact at h ⊢
  rw [List.find?_append, h]
  simp [hr]

theorem countToken_eq_zero_of_lookup_none (repo : ClipRepository) (t : String)
    (h : lookupExact repo t = none) : countToken repo t = 0 := by
  unfold lookupExact at h
  unfold countToken
  rw [List.countP_eq_zero]
  exact List.find?_eq_none.mp h

/-- C2: `register` is idempotent with first-writer-wins semantics: when a
record for the token already exists, `register` returns it unchanged and
leaves the store untouched; a second `register` of the same token returns the
first call's record with the store unchanged; and `register` preserves the
at-most-one-record-per-token invariant. -/
theorem c2_register_idempotent (repo : ClipRepository) (t : String) (d d' : ClipData) :
    (∀ r, lookupExact repo t = some r → register repo t d = (r, repo)) ∧
    register (register repo t d).2 t d' = register repo t d ∧
    ((∀ u, countToken repo u ≤ 1) → ∀ u, countToken (register repo t d).2 u ≤ 1) := by
  refine ⟨?_, ?_, ?_⟩
  · intro r h
    simp [register, h]
  · cases h : lookupExact repo t with
    | some r =>
      simp [register, h]
    | none =>
      have h1 : lookupExact (repo ++ [recordOf t d]) t = some (recordOf t d) :=
        lookupExact_append_single repo t (recordOf t d) h rfl
      simp [register, h, h1]
  · intro hinv u
    cases h : lookupExact repo t with
    | some r =>
      simpa [register, h] using hinv u
    | none =>
      have h0 : countToken repo t = 0 := countToken_eq_zero_of_lookup_none repo t h
      simp only [register, h]
      unfold countToken at h0 hinv ⊢
      rw [List.countP_append]
      by_cases hu : t = u
      · subst hu
        simp [recordOf, h0]
      · have hne : ((recordOf t d).token == u) = false := by
          simp only [recordOf]
          simp
          exact hu
        have h2 : List.countP (fun r => r.token == u) [recordOf t d] = 0 := by
          simp [List.countP_cons, hne]
        rw [h2]
        simpa using hinv u

/-! ## Video Assembler (spec.md §4.4) -/

/-- Modelled from the spec: the substitution policy for UNRESOLVED segments
(§4.4): skip the segment entirely, or insert a fixed-duration placeholder. -/
inductive SubstitutionPolicy where
  | skip
  | placeholder (durMs : Nat)
deriving DecidableEq, Repr

/-- Modelled from the spec: `AssemblyError` cases (§4.4, §7). -/
inductive AssemblyError where
  | NoSegments
  | TimingMismatch
deriving DecidableEq, Repr

/-- Modelled from the spec: one piece of the concatenated output video —
a normalized clip or a fixed-duration placeholder hold frame (§4.4). -/
inductive OutputPiece where
  | clip (r : ClipRecord)
  | hold (durMs : Nat)
deriving DecidableEq, Repr

/-- Duration contributed by one output piece. Normalization to a common
resolution/frame-rate/codec (§4.4) does not change durations, so it is not
modelled further. -/
def OutputPiece.durationMs : OutputPiece → Nat
  | .clip r => r.durationMs
  | .hold d => d

/-- Modelled from the spec: the ordered concatenation the assembler produces
from the resolved segments (§4.4): resolved clips in `resolvedSegments` order;
an UNRESOLVED segment is skipped or replaced by a placeholder according to the
policy. The Video Assembler implementation is not in the repository sources. -/
def outputPieces (policy : SubstitutionPolicy) : List ResolvedSegment → List OutputPiece
  | [] => []
  | s :: rest =>
    match s.clip with
    | some c => .clip c :: outputPieces policy rest
    | none =>
      match policy with
      | .skip => outputPieces policy rest
      | .placeholder d => .hold d :: outputPieces policy rest

/-- Total duration of the assembled output. -/
def outputDuration (policy : SubstitutionPolicy) (segs : List ResolvedSegment) : Nat :=
  ((outputPieces policy segs).map OutputPiece.durationMs).sum

/-- Modelled from the spec: `assemble(resolvedSegments)` (§4.4): concatenate
in order; `AssemblyError{NoSegments}` when the policy leaves nothing to
concatenate (every segment UNRESOLVED under the skip policy). -/
def assemble (policy : SubstitutionPolicy) (segs : List ResolvedSegment) :
    Except AssemblyError (List OutputPiece) :=
  match outputPieces policy segs with
  | [] => .error .NoSegments
  | p :: ps => .ok (p :: ps)

/-- Durations of the resolved (non-UNRESOLVED) segments, in order. -/
def includedDurations (segs : List ResolvedSegment) : List Nat :=
  segs.filterMap (fun s => s.clip.map ClipRecord.durationMs)

/-- Number of UNRESOLVED segments. -/
def countUnresolved (segs : List ResolvedSegment) : Nat :=
  segs.countP (fun s => s.clip.isNone)

/-- C3: the assembler's output duration under the skip policy is exactly the
sum of the included (non-UNRESOLVED) segment durations; under the placeholder
policy it is that sum plus one fixed placeholder duration per UNRESOLVED
segment; and the output is the included clips in `resolvedSegments` order with
no re-ordering. -/
theorem outputPieces_skip_eq (segs : List ResolvedSegment) :
    outputPieces .skip segs = (segs.filterMap (fun s => s.clip)).map OutputPiece.clip := by
  induction segs with
  | nil => rfl
  | cons s rest ih =>
    cases hc : s.clip with
    | none => simpa [outputPieces, hc] using ih
    | some c => simpa [outputPieces, hc] using ih

theorem outputDuration_placeholder_eq (d : Nat) (segs : List ResolvedSegment) :
    outputDuration (.placeholder d) segs
      = (includedDurations segs).sum + d * countUnresolved segs := by
  induction segs with
  | nil => rfl
  | cons s rest ih =>
    cases hc : s.clip with
    | none =>
      simp [outputDuration, outputPieces, includedDurations, countUnresolved, hc,
        OutputPiece.durationMs, List.countP_cons, Nat.mul_succ] at ih ⊢
      omega
    | some c =>
      simp [outputDuration, outputPieces, includedDurations, countUnresolved, hc,
        OutputPiece.durationMs, List.countP_cons] at ih ⊢
      omega

/-- C3: the assembler's output duration under the skip policy is exactly the
sum of the included (non-UNRESOLVED) segment durations; under the placeholder
policy it is that sum plus one fixed placeholder duration per UNRESOLVED
segment; and the output is the included clips in `resolvedSegments` order with
no re-ordering. -/
theorem c3_assembler_duration (segs : List ResolvedSegment) (d : Nat) :
    outputDuration .skip segs = (includedDurations segs).sum ∧
    outputDuration (.placeholder d) segs
      = (includedDurations segs).sum + d * countUnresolved segs ∧
    outputPieces .skip segs = (segs.filterMap (fun s => s.clip)).map OutputPiece.clip := by
  refine ⟨?_, outputDuration_placeholder_eq d segs, outputPieces_skip_eq segs⟩
  unfold outputDuration includedDurations
  rw [outputPieces_skip_eq, List.map_map, List.map_filterMap]
  congr 1

/-! ## Job Coordinator (spec.md §4.5) -/

/-- Modelled from the spec: the job state machine's states (§4.5). -/
inductive JobState where
  | SUBMITTED
  | TRANSCRIBING
  | TRANSLATING
  | RESOLVING
  | ASSEMBLING
  | COMPLETED
  | FAILED
deriving DecidableEq, Repr

/-- `COMPLETED` and `FAILED` are the terminal states (§4.5). -/
def JobState.isTerminal : JobState → Bool
  | .COMPLETED => true
  | .FAILED => true
  | _ => false

/-- Modelled from the spec: the error taxonomy recorded on a failed job (§7) —
upstream capability failures, fatal assembly errors, and cancellation (§5). -/
inductive JobError where
  | Transcription
  | Translation
  | Assembly (e : AssemblyError)
  | Cancelled
deriving DecidableEq, Repr

/-- Modelled from the spec: the `Job` record (§3); the Job Coordinator
implementation is not in the repository sources. Per-transition timestamps
are bookkeeping not needed by any claim and are omitted. -/
structure Job where
  jobId : String
  state : JobState
  inputRef : String
  transcript : String
  glossSequence : List String
  resolvedSegments : List ResolvedSegment
  outputArtifactRef : Option String
  error : Option JobError
deriving DecidableEq, Repr

/-- Modelled from the spec: the events that drive a job through the state
machine of §4.5 — each stage's completion or failure, and caller
cancellation checked at stage boundaries (§5). -/
inductive StageEvent where
  | start
  | transcribeDone (text : String)
  | transcribeFailed
  | translateDone (gloss : List String)
  | translateFailed
  | resolveDone
  | assembleDone
  | cancel
deriving DecidableEq, Repr

/-- Transition of a job into `FAILED` with the originating error recorded. -/
def failWith (j : Job) (e : JobError) : Job :=
  { j with state := .FAILED, error := some e }

/-- Modelled from the spec: one step of the Job Coordinator's per-job state
machine (§4.5): `SUBMITTED → TRANSCRIBING → TRANSLATING → RESOLVING →
ASSEMBLING → COMPLETED`, `FAILED` reachable from every non-terminal state
(stage failures, fatal assembly errors, cancellation); events that do not
match the job's current state change nothing. The Job Coordinator
implementation is not in the repository sources. -/
def stepJob (env : ResolveEnv) (policy : SubstitutionPolicy) (ev : StageEvent)
    (j : Job) : Job :=
  match ev, j.state with
  | .start, .SUBMITTED => { j with state := .TRANSCRIBING }
  | .transcribeDone txt, .TRANSCRIBING => { j with state := .TRANSLATING, transcript := txt }
  | .transcribeFailed, .TRANSCRIBING => failWith j .Transcription
  | .translateDone gs, .TRANSLATING => { j with state := .RESOLVING, glossSequence := gs }
  | .translateFailed, .TRANSLATING => failWith j .Translation
  | .resolveDone, .RESOLVING =>
    { j with state := .ASSEMBLING, resolvedSegments := resolve env j.glossSequence }
  | .assembleDone, .ASSEMBLING =>
    match assemble policy j.resolvedSegments with
    | .ok _ => { j with state := .COMPLETED, outputArtifactRef := some ("output/" ++ j.jobId) }
    | .error e => failWith j (.Assembly e)
  | .cancel, .SUBMITTED => failWith j .Cancelled
  | .cancel, .TRANSCRIBING => failWith j .Cancelled
  | .cancel, .TRANSLATING => failWith j .Cancelled
  | .cancel, .RESOLVING => failWith j .Cancelled
  | .cancel, .ASSEMBLING => failWith j .Cancelled
  | _, _ => j

/-- Modelled from the spec: the coordinator's job store — jobs keyed by
`jobId`, kept indefinitely for history (§3, §4.5). -/
abbrev Coordinator : Type := List (String × Job)

/-- Modelled from the spec: `getJobStatus(jobId)` (§6): the stored snapshot of
the job with that id. -/
def getJobStatus : Coordinator → String → Option Job
  | [], _ => none
  | (k, j) :: rest, id => if k = id then some j else getJobStatus rest id

/-- Result of `submitJob` (§6). -/
inductive SubmitResult where
  | accepted
  | rejected (reason : String)
deriving DecidableEq, Repr

/-- A freshly submitted job in its initial state (§4.5). -/
def newJob (id inputRef : String) : Job :=
  { jobId := id, state := .SUBMITTED, inputRef := inputRef, transcript := "",
    glossSequence := [], resolvedSegments := [], outputArtifactRef := none,
    error := none }

/-- Modelled from the spec: `submitJob(jobId, inputRef)` (§4.5, §6): at most
one job per `jobId` — a second submission for an id the store already holds is
rejected, not queued, and the store is unchanged (`jobId` is unique and
terminal jobs remain retrievable indefinitely, so a stored id is never
overwritten; a retry is a new submission by the caller). -/
def submitJob (c : Coordinator) (id inputRef : String) : SubmitResult × Coordinator :=
  match getJobStatus c id with
  | some _ => (.rejected "duplicate jobId", c)
  | none => (.accepted, c ++ [(id, newJob id inputRef)])

/-- Modelled from the spec: an operation on the coordinator's store — a
submission, or delivery of a stage event to the job with a given id. -/
inductive CoordOp where
  | submit (id inputRef : String)
  | deliverEvent (id : String) (ev : StageEvent)

/-- Deliver a stage event to the job stored under `id`, if any. -/
def deliverEvent (env : ResolveEnv) (policy : SubstitutionPolicy) (ev : StageEvent) :
    Coordinator → String → Coordinator
  | [], _ => []
  | (k, j) :: rest, id =>
    if k = id then (k, stepJob env policy ev j) :: rest
    else (k, j) :: deliverEvent env policy ev rest id

/-- One step of the coordinator's store under an operation. -/
def coordStep (env : ResolveEnv) (policy : SubstitutionPolicy) (c : Coordinator) :
    CoordOp → Coordinator
  | .submit id inputRef => (submitJob c id inputRef).2
  | .deliverEvent id ev => deliverEvent env policy ev c id

theorem outputPieces_skip_nil_of_all_unresolved (segs : List ResolvedSegment)
    (h : ∀ s ∈ segs, s.clip = none) : outputPieces .skip segs = [] := by
  induction segs with
  | nil => rfl
  | cons s rest ih =>
    have hs : s.clip = none := h s (by simp)
    simp only [outputPieces, hs]
    exact ih fun x hx => h x (by simp [hx])

/-- C4: when every resolved segment is UNRESOLVED and the policy is skip,
completing the assembly stage fails the job with `AssemblyError{NoSegments}`:
the job ends `FAILED` with that error recorded, never `COMPLETED` with an
empty output video. -/
theorem c4_all_unresolved_fails (env : ResolveEnv) (j : Job)
    (h1 : j.state = .ASSEMBLING) (h2 : ∀ s ∈ j.resolvedSegments, s.clip = none) :
    (stepJob env .skip .assembleDone j).state = .FAILED ∧
    (stepJob env .skip .assembleDone j).error = some (.Assembly .NoSegments) ∧
    (stepJob env .skip .assembleDone j).state ≠ .COMPLETED := by
  have hp : outputPieces .skip j.resolvedSegments = [] :=
    outputPieces_skip_nil_of_all_unresolved _ h2
  have ha : assemble .skip j.resolvedSegments = .error .NoSegments := by
    simp [assemble, hp]
  simp [stepJob, h1, ha, failWith]

/-- C5: a second submission with a `jobId` the coordinator already holds in a
non-terminal state is rejected, not queued, and the store — in particular the
existing job — is unchanged. -/
theorem c5_duplicate_submission_rejected (c : Coordinator) (id inputRef : String)
    (j : Job) (h : getJobStatus c id = some j) (_hnt : j.state.isTerminal = false) :
    (submitJob c id inputRef).1 = .rejected "duplicate jobId" ∧
    (submitJob c id inputRef).2 = c := by
  simp [submitJob, h]

/-- C6: a token whose repository lookup misses and whose fallback fetch fails
with any `FetchError` resolves to `ResolvedSegment{token, UNRESOLVED}` at its
own position, while every position of the sequence is still resolved from its
own token alone — no per-token failure aborts resolution of sibling tokens. -/
theorem c6_fetch_failure_degrades (env : ResolveEnv) (gs : List String) (i : Nat)
    (t : String) (e : FetchError) (hi : gs[i]? = some t)
    (hl : env.lookup t = .notFound) (hf : env.fetch t = .err e) :
    (resolve env gs)[i]? = some { token := t, clip := none, source := .MISSING } ∧
    ∀ j : Nat, (resolve env gs)[j]? = (gs[j]?).map (resolveToken env) := by
  constructor
  · simp [resolve, List.getElem?_map, hi, resolveToken, hl, hf]
  · intro j
    simp [resolve, List.getElem?_map]

theorem stepJob_of_terminal (env : ResolveEnv) (policy : SubstitutionPolicy)
    (ev : StageEvent) (j : Job) (h : j.state.isTerminal = true) :
    stepJob env policy ev j = j := by
  obtain ⟨id, st, inp, tr, gs, segs, art, err⟩ := j
  cases st <;> simp [JobState.isTerminal] at h <;> cases ev <;> rfl

theorem getJobStatus_append_left (c l : Coordinator) (id : String) (j : Job)
    (h : getJobStatus c id = some j) : getJobStatus (c ++ l) id = some j := by
  induction c with
  | nil => simp [getJobStatus] at h
  | cons p rest ih =>
    obtain ⟨k, j0⟩ := p
    by_cases hk : k = id
    · simp [getJobStatus, hk] at h ⊢
      exact h
    · simp [getJobStatus, hk] at h ⊢
      exact ih h

theorem getJobStatus_deliverEvent (env : ResolveEnv) (policy : SubstitutionPolicy)
    (ev : StageEvent) (c : Coordinator) (id qid : String) (j : Job)
    (h : getJobStatus c qid = some j) (hterm : j.state.isTerminal = true) :
    getJobStatus (deliverEvent env policy ev c id) qid = some j := by
  induction c with
  | nil => simp [getJobStatus] at h
  | cons p rest ih =>
    obtain ⟨k, j0⟩ := p
    simp only [getJobStatus] at h
    simp only [deliverEvent]
    by_cases hk : k = id
    · rw [if_pos hk]
      by_cases hq : k = qid
      · rw [if_pos hq] at h
        simp only [getJobStatus, if_pos hq]
        rw [Option.some_inj] at h
        rw [h, stepJob_of_terminal env policy ev j hterm]
      · rw [if_neg hq] at h
        simp only [getJobStatus, if_neg hq]
        exact h
    · rw [if_neg hk]
      by_cases hq : k = qid
      · rw [if_pos hq] at h
        simp only [getJobStatus, if_pos hq]
        exact h
      · rw [if_neg hq] at h
        simp only [getJobStatus, if_neg hq]
        exact ih h

/-- C7: a job in a terminal state (`COMPLETED` or `FAILED`) is immutable: no
stage event changes any of its fields, and after any coordinator operation —
a submission or an event delivery — the job is still retrievable through
`getJobStatus`, unchanged. -/
theorem c7_terminal_immutable (env : ResolveEnv) (policy : SubstitutionPolicy)
    (ev : StageEvent) (j : Job) (h : j.state.isTerminal = true) :
    stepJob env policy ev j = j ∧
    ∀ (c : Coordinator) (op : CoordOp) (qid : String),
      getJobStatus c qid = some j → getJobStatus (coordStep env policy c op) qid = some j := by
  refine ⟨stepJob_of_terminal env policy ev j h, ?_⟩
  intro c op qid hq
  cases op with
  | submit sid sinp =>
    simp only [coordStep, submitJob]
    cases hg : getJobStatus c sid with
    | some j0 => simpa using hq
    | none => exact getJobStatus_append_left c _ qid j hq
  | deliverEvent did ev' =>
    exact getJobStatus_deliverEvent env policy ev' c did qid j hq h

/-! ## Concrete witnesses -/

/-- A concrete locally stored clip. -/
def clipHELLO : ClipRecord :=
  { token := "HELLO", sourcePath := "clips/HELLO.mp4", durationMs := 1200,
    resolution := (1280, 720), frameRate := 30, origin := .LOCAL, fetchedAt := none }

/-- A concrete resolution environment: the repository knows `HELLO`; every
fallback fetch fails with `NotFound`. -/
def envW : ResolveEnv :=
  { lookup := fun t => if t = "HELLO" then .found clipHELLO false else .notFound,
    fetch := fun _ => .err .NotFound }

/-- Concrete registration payload. -/
def clipDataW : ClipData :=
  { sourcePath := "clips/NAME.mp4", durationMs := 800, resolution := (1280, 720),
    frameRate := 30, origin := .FETCHED, fetchedAt := some 1 }

/-- A concrete job sitting at the assembly stage with every segment
UNRESOLVED. -/
def jobW : Job :=
  { jobId := "job-1", state := .ASSEMBLING, inputRef := "input/audio-1",
    transcript := "name", glossSequence := ["NAME"],
    resolvedSegments := [{ token := "NAME", clip := none, source := .MISSING }],
    outputArtifactRef := none, error := none }

/-- A concrete job in the terminal `COMPLETED` state. -/
def jobDoneW : Job :=
  { jobW with state := .COMPLETED, outputArtifactRef := some "output/job-1" }

theorem c2_register_idempotent_witness :
    register [clipHELLO] "HELLO" clipDataW = (clipHELLO, [clipHELLO]) :=
  (c2_register_idempotent [clipHELLO] "HELLO" clipDataW clipDataW).1 clipHELLO (by decide)

theorem c4_all_unresolved_fails_witness :
    (stepJob envW .skip .assembleDone jobW).state = .FAILED ∧
    (stepJob envW .skip .assembleDone jobW).error = some (.Assembly .NoSegments) ∧
    (stepJob envW .skip .assembleDone jobW).state ≠ .COMPLETED :=
  c4_all_unresolved_fails envW jobW rfl (by decide)

theorem c5_duplicate_submission_rejected_witness :
    (submitJob [("job-1", newJob "job-1" "input/audio-1")] "job-1" "input/audio-2").1
      = .rejected "duplicate jobId" ∧
    (submitJob [("job-1", newJob "job-1" "input/audio-1")] "job-1" "input/audio-2").2
      = [("job-1", newJob "job-1" "input/audio-1")] :=
  c5_duplicate_submission_rejected [("job-1", newJob "job-1" "input/audio-1")]
    "job-1" "input/audio-2" (newJob "job-1" "input/audio-1") (by decide) (by decide)

theorem c6_fetch_failure_degrades_witness :
    (resolve envW ["HELLO", "NAME"])[1]?
      = some { token := "NAME", clip := none, source := .MISSING } :=
  (c6_fetch_failure_degrades envW ["HELLO", "NAME"] 1 "NAME" .NotFound rfl
    (by decide) rfl).1

theorem c7_terminal_immutable_witness :
    stepJob envW .skip .cancel jobDoneW = jobDoneW ∧
    getJobStatus
      (coordStep envW .skip [("job-1", jobDoneW)] (.deliverEvent "job-1" .cancel))
      "job-1" = some jobDoneW := by
  have h := c7_terminal_immutable envW .skip .cancel jobDoneW (by decide)
  exact ⟨h.1, h.2 [("job-1", jobDoneW)] (.deliverEvent "job-1" .cancel) "job-1" (by decide)⟩

/-! ## Frontend session logic (src/frontend/src/App.jsx) -/

/-- The user object the frontend stores: `userData.id` is checked for JS
truthiness on session restore (a missing, null or empty id is falsy). -/
structure UserData where
  id : Option String
  username : String
deriving DecidableEq, Repr

/-- JS truthiness of an optional string (`null`/`undefined` and `""` are
falsy). -/
def truthyStr : Option String → Bool
  | some s => s != ""
  | none => false

/-- JS truthiness of the `id` field of a parsed user object. -/
def truthyId (u : UserData) : Bool := truthyStr u.id

/-- The two localStorage keys App.jsx reads and writes: `token` and `user`. -/
structure LocalStorage where
  tokenKey : Option String
  userKey : Option String
deriving DecidableEq, Repr

/-- Outcome of `JSON.parse` on the saved `user` string: an exception, or a
JS value — `value none` models a parsed value that is not a user object
(e.g. JSON `null`), `value (some u)` an object with the modelled fields. -/
inductive ParseOutcome where
  | thrown
  | value (v : Option UserData)
deriving DecidableEq, Repr

/-- The component state of `App` relevant to the session claims: the
`useState` hooks of App.jsx lines 9-18. -/
structure AppState where
  user : Option UserData
  token : Option String
  showSignup : Bool
  file : Option String
  status : String
  transcript : String
  videoUrl : String
  isProcessing : Bool
  videoHistory : List String
deriving DecidableEq, Repr

/-- The initial `App` state: every `useState` initializer of App.jsx. -/
def initialAppState : AppState :=
  { user := none, token := none, showSignup := false, file := none, status := "",
    transcript := "", videoUrl := "", isProcessing := false, videoHistory := [] }

/-- The session-restore effect on mount (App.jsx lines 21-44): read both keys;
if both are truthy, parse the saved user; on a parsed object with a truthy
`id`, adopt the session (the asynchronous `loadVideoHistory` call is a
separate fetch and not part of this state update); otherwise remove both keys
and leave the component state untouched. -/
def mountEffect (parse : String → ParseOutcome) (ls : LocalStorage) (st : AppState) :
    AppState × LocalStorage :=
  match ls.tokenKey, ls.userKey with
  | some savedToken, some savedUser =>
    if savedToken != "" && savedUser != "" then
      match parse savedUser with
      | .value (some u) =>
        if truthyId u then ({ st with token := some savedToken, user := some u }, ls)
        else (st, { ls with tokenKey := none, userKey := none })
      | .value none => (st, { ls with tokenKey := none, userKey := none })
      | .thrown => (st, { ls with tokenKey := none, userKey := none })
    else (st, ls)
  | _, _ => (st, ls)

/-- `handleLogout` (App.jsx lines 84-92): remove both localStorage keys and
reset `user`, `token`, `videoHistory`, `videoUrl` and `transcript`. -/
def handleLogout (st : AppState) (ls : LocalStorage) : AppState × LocalStorage :=
  ({ st with user := none, token := none, videoHistory := [], videoUrl := "",
             transcript := "" },
   { ls with tokenKey := none, userKey := none })

/-- What `App` renders (App.jsx lines 148-163): the login/signup screen when
`!user || !token`, otherwise the upload interface. -/
inductive Screen where
  | authScreen (showSignup : Bool)
  | uploadScreen
deriving DecidableEq, Repr

/-- The auth gate of App.jsx line 149: `if (!user || !token)` show login or
signup, else the upload interface. -/
def render (st : AppState) : Screen :=
  if !st.user.isSome || !truthyStr st.token then .authScreen st.showSignup
  else .uploadScreen

/-- The saved user JSON is invalid: `JSON.parse` throws, or the parsed value
is not an object with a truthy `id` field. -/
def invalidUserJson : ParseOutcome → Bool
  | .thrown => true
  | .value none => true
  | .value (some u) => !truthyId u

/-- C8: the App never retains a partial or invalid session. On mount, a saved
user JSON that fails to parse or lacks a (truthy) `id` makes the effect
remove both localStorage keys and leave the component state untouched — no
session is set; `handleLogout` removes both keys and resets `user`, `token`,
`videoHistory`, `videoUrl` and `transcript`; and whenever `user` or `token`
is null the component renders the login/signup screen, never the upload
interface. -/
theorem c8_no_invalid_session :
    (∀ (parse : String → ParseOutcome) (ls : LocalStorage) (st : AppState)
       (tk us : String),
       ls.tokenKey = some tk → tk ≠ "" → ls.userKey = some us → us ≠ "" →
       invalidUserJson (parse us) = true →
       mountEffect parse ls st = (st, { ls with tokenKey := none, userKey := none })) ∧
    (∀ (st : AppState) (ls : LocalStorage),
       (handleLogout st ls).1.user = none ∧ (handleLogout st ls).1.token = none ∧
       (handleLogout st ls).1.videoHistory = [] ∧ (handleLogout st ls).1.videoUrl = "" ∧
       (handleLogout st ls).1.transcript = "" ∧
       (handleLogout st ls).2.tokenKey = none ∧ (handleLogout st ls).2.userKey = none) ∧
    (∀ st : AppState, st.user = none ∨ st.token = none →
       render st = .authScreen st.showSignup) := by
  refine ⟨?_, ?_, ?_⟩
  · intro parse ls st tk us htk htkne hus husne hbad
    simp only [mountEffect, htk, hus]
    rw [if_pos (by simp [htkne, husne])]
    cases hp : parse us with
    | thrown => rfl
    | value v =>
      cases v with
      | none => rfl
      | some u =>
        rw [hp] at hbad
        simp only [invalidUserJson, Bool.not_eq_true'] at hbad
        simp [hbad]
  · intro st ls
    refine ⟨rfl, rfl, rfl, rfl, rfl, rfl, rfl⟩
  · intro st h
    cases h with
    | inl hu => simp [render, hu]
    | inr ht => simp [render, ht, truthyStr]

theorem c8_no_invalid_session_witness :
    mountEffect (fun _ => ParseOutcome.thrown)
      { tokenKey := some "tok-1", userKey := some "not json" } initialAppState
      = (initialAppState, { tokenKey := none, userKey := none }) :=
  c8_no_invalid_session.1 (fun _ => ParseOutcome.thrown)
    { tokenKey := some "tok-1", userKey := some "not json" } initialAppState
    "tok-1" "not json" rfl (by decide) rfl (by decide) (by decide)

/-- The response of a `POST /api/process` call, as `handleSubmit` consumes
it: `fetch`'s `response.ok` is `200 ≤ status < 300`; `errorField` is the
`error` property of the parsed error body (absent when the body fails to
parse, App.jsx line 124); `transcript` and `videoUrlPath` are the success
payload. -/
structure ProcessResponse where
  status : Nat
  errorField : Option String
  transcript : String
  videoUrlPath : String
deriving DecidableEq, Repr

/-- `response.ok` of the Fetch API: status in the inclusive range 200-299. -/
def responseOk (status : Nat) : Bool := 200 ≤ status && status < 300

/-- The state `handleSubmit` sets before awaiting the response (App.jsx lines
106-109). -/
def uploadingState (st : AppState) : AppState :=
  { st with isProcessing := true,
            status := "Uploading video and running transcription...",
            transcript := "", videoUrl := "" }

/-- `error.error || 'Request failed'` (App.jsx line 129): a missing or falsy
`error` property falls back to the fixed message. -/
def submitErrorMsg (resp : ProcessResponse) : String :=
  match resp.errorField with
  | some s => if s = "" then "Request failed" else s
  | none => "Request failed"

/-- `handleSubmit` (App.jsx lines 94-146) as a state transformer: guard on a
chosen file and a token, set the uploading state, then dispatch on the
response — success stores transcript and video URL; 401 logs out and surfaces
the session-expired message; any other failure surfaces the server's error
message. `now` is `Date.now()`; the asynchronous `loadVideoHistory` reload on
success is a separate fetch and not part of this state update. -/
def handleSubmit (now : Nat) (st : AppState) (ls : LocalStorage)
    (resp : ProcessResponse) : AppState × LocalStorage :=
  if st.file.isNone then ({ st with status := "Please choose a video file first." }, ls)
  else if !truthyStr st.token then ({ st with status := "Please login first." }, ls)
  else
    let st1 := uploadingState st
    if responseOk resp.status then
      ({ st1 with transcript := resp.transcript,
                  videoUrl := "/api" ++ resp.videoUrlPath ++ "?t=" ++ toString now,
                  status := "Done! Scroll down to review the transcript and ASL video.",
                  isProcessing := false }, ls)
    else if resp.status = 401 then
      let p := handleLogout st1 ls
      ({ p.1 with status := "Session expired. Please login again.",
                  isProcessing := false }, p.2)
    else
      ({ st1 with status := submitErrorMsg resp, isProcessing := false }, ls)

/-- C9: on a 401 response from `/api/process`, `handleSubmit` invokes
`handleLogout` — clearing the stored token and user — before surfacing
"Session expired. Please login again."; no credential survives the
authentication failure. -/
theorem c9_session_expired_logout (now : Nat) (st : AppState) (ls : LocalStorage)
    (resp : ProcessResponse) (hfile : st.file.isNone = false)
    (htok : truthyStr st.token = true) (h401 : resp.status = 401) :
    handleSubmit now st ls resp =
      (let p := handleLogout (uploadingState st) ls
       ({ p.1 with status := "Session expired. Please login again.",
                   isProcessing := false }, p.2)) ∧
    (handleSubmit now st ls resp).1.user = none ∧
    (handleSubmit now st ls resp).1.token = none ∧
    (handleSubmit now st ls resp).2.tokenKey = none ∧
    (handleSubmit now st ls resp).2.userKey = none ∧
    (handleSubmit now st ls resp).1.status = "Session expired. Please login again." := by
  have hok : responseOk resp.status = false := by
    rw [h401]
    rfl
  have hmain : handleSubmit now st ls resp =
      (let p := handleLogout (uploadingState st) ls
       ({ p.1 with status := "Session expired. Please login again.",
                   isProcessing := false }, p.2)) := by
    simp only [handleSubmit, hfile, htok, hok, h401]
    rfl
  refine ⟨hmain, ?_, ?_, ?_, ?_, ?_⟩ <;> rw [hmain] <;> rfl

/-- A concrete logged-in App state with a file chosen. -/
def appStateW : AppState :=
  { user := some { id := some "u1", username := "ada" }, token := some "tok-1",
    showSignup := false, file := some "clip.mp4", status := "", transcript := "",
    videoUrl := "", isProcessing := false, videoHistory := [] }

/-- A concrete 401 response. -/
def respW : ProcessResponse :=
  { status := 401, errorField := some "Authentication required",
    transcript := "", videoUrlPath := "" }

theorem c9_session_expired_logout_witness :
    (handleSubmit 0 appStateW { tokenKey := some "tok-1", userKey := some "u" }
      respW).1.token = none ∧
    (handleSubmit 0 appStateW { tokenKey := some "tok-1", userKey := some "u" }
      respW).1.status = "Session expired. Please login again." := by
  have h := c9_session_expired_logout 0 appStateW
    { tokenKey := some "tok-1", userKey := some "u" } respW rfl (by decide) rfl
  exact ⟨h.2.2.1, h.2.2.2.2.2⟩

end GenASL
